import Mathlib

/-!
Verification development for the FlyPathArbitrage flight-offer pipeline
(`flight_scanner.py`).  The Python functions operating on flight-offer
records are embedded shallowly: offer records become structures carrying
exactly the fields the functions read, numeric string prices (parsed with
`float`) are modelled as rationals, dictionaries become association lists,
and functions that can raise a Python exception return `Except String`
with the exception class name as the error value.
-/

namespace FlyPath

/-- One entry of a traveler's `fareDetailsBySegment` list. -/
structure FareDetail where
  segmentId : String
  cabin : String
deriving DecidableEq, Repr

/-- One entry of an offer's `travelerPricings` list. -/
structure TravelerPricing where
  /-- `traveler['price']['total']`, parsed as a number. -/
  priceTotal : ℚ
  fareDetailsBySegment : List FareDetail
deriving DecidableEq, Repr

/-- Date part of a segment's ISO timestamp (`departure['at']`).  The
weekday computed by `_get_weekday` depends only on the calendar date, so
the time-of-day components are not modelled. -/
structure DateTime where
  year : ℕ
  month : ℕ
  day : ℕ
deriving DecidableEq, Repr

/-- One segment of an itinerary, with the fields read by the pipeline
functions. -/
structure Segment where
  departureIata : String
  arrivalIata : String
  departureAt : DateTime
  numberOfStops : ℕ
deriving DecidableEq, Repr

/-- One itinerary of an offer.  `filter_flights` reads the itinerary's
ISO-8601 duration string through `_get_duration`, which converts it to
minutes; the embedding carries that minute value directly. -/
structure Itinerary where
  durationMinutes : ℕ
  segments : List Segment
deriving DecidableEq, Repr

/-- A flight offer as consumed by the aggregation pipeline.
`validatingAirline0` is `flight['validatingAirlineCodes'][0]` (non-empty
for any usable offer, per the data model); `priceTotal` and
`priceGrandTotal` are `float(flight['price']['total'])` and
`float(flight['price']['grandTotal'])`. -/
structure Flight where
  validatingAirline0 : String
  priceTotal : ℚ
  priceGrandTotal : ℚ
  itineraries : List Itinerary
  travelerPricings : List TravelerPricing
deriving DecidableEq, Repr

/-! ### `filter_flights`

Python tests each optional criterion with `if crit and ...` /
`if crit:`, so a criterion participates only when its value is truthy:
a number must be non-zero, a list non-empty, a string non-empty. -/

/-- Truthiness of an optional numeric criterion (`max_duration`,
`max_stops`): `None` and `0` are falsy. -/
def truthyNat : Option ℕ → Bool
  | none => false
  | some n => n != 0

/-- Truthiness of the optional `airlines` list: `None` and `[]` are
falsy. -/
def truthyList : Option (List String) → Bool
  | none => false
  | some l => !l.isEmpty

/-- Truthiness of the optional `cabin_class` string: `None` and `""` are
falsy. -/
def truthyStr : Option String → Bool
  | none => false
  | some s => s != ""

/-- Body of the per-itinerary loop of `filter_flights`: `true` when one
of the four criterion checks fires and sets `add_flight = False` for
this itinerary. -/
def itineraryFails (md ms : Option ℕ) (al : Option (List String))
    (cc : Option String) (f : Flight) (it : Itinerary) : Bool :=
  (truthyNat md && decide (md.getD 0 < it.durationMinutes)) ||
  (truthyNat ms && it.segments.any (fun s => decide (ms.getD 0 < s.numberOfStops))) ||
  (truthyList al && !((al.getD []).contains f.validatingAirline0)) ||
  (truthyStr cc && f.travelerPricings.any
      (fun t => t.fareDetailsBySegment.all (fun d => d.cabin != cc.getD "")))

/-- A flight is appended to `filtered_flights` exactly when no itinerary
check set `add_flight` to `False`. -/
def keepFlight (md ms : Option ℕ) (al : Option (List String))
    (cc : Option String) (f : Flight) : Bool :=
  !(f.itineraries.any (itineraryFails md ms al cc f))

/-- `FlightScanner.filter_flights` (flight_scanner.py, lines 434-451):
the loop appends, in input order, exactly the flights whose checks all
pass, i.e. it filters by `keepFlight`. -/
def filter_flights (flights : List Flight) (md ms : Option ℕ)
    (al : Option (List String)) (cc : Option String) : List Flight :=
  flights.filter (keepFlight md ms al cc)

/-- With no criteria supplied, every check is skipped and the flight is
kept. -/
lemma keepFlight_none (f : Flight) : keepFlight none none none none f = true := by
  simp [keepFlight, itineraryFails, truthyNat, truthyList, truthyStr]

/-- A flight satisfies the cabin condition the code actually enforces
when every traveler's `fareDetailsBySegment` contains the requested
cabin somewhere. -/
def cabinSatisfied (cc : String) (f : Flight) : Bool :=
  f.travelerPricings.all fun t => t.fareDetailsBySegment.any fun d => d.cabin == cc

lemma not_all_cabin_ne (cc : String) (ds : List FareDetail) :
    (!(ds.all fun d => d.cabin != cc)) = ds.any fun d => d.cabin == cc := by
  simp only [bne]
  induction ds with
  | nil => simp
  | cons d ds ih => simp [Bool.not_and, ih]

lemma any_all_ne_eq_not_cabinSatisfied (cc : String) (f : Flight) :
    (f.travelerPricings.any fun t => t.fareDetailsBySegment.all fun d => d.cabin != cc)
      = !(cabinSatisfied cc f) := by
  unfold cabinSatisfied
  induction f.travelerPricings with
  | nil => simp
  | cons t ts ih => simp [Bool.not_and, ih, ← not_all_cabin_ne]

/-- Splitting off the cabin criterion: with a truthy `cabin_class`, the
kept flights are those kept by the remaining criteria whose travelers
all list the requested cabin (an offer without itineraries never runs
any check and is always kept). -/
lemma keepFlight_some_cabin (md ms : Option ℕ) (al : Option (List String))
    (cc : String) (h : cc ≠ "") (f : Flight) :
    keepFlight md ms al (some cc) f
      = ((f.itineraries.isEmpty || cabinSatisfied cc f)
          && keepFlight md ms al none f) := by
  have hcc : truthyStr (some cc) = true := by simp [truthyStr, h]
  have hnone : truthyStr (none : Option String) = false := rfl
  unfold keepFlight itineraryFails
  simp only [hcc, hnone, Bool.true_and, Bool.false_and, Bool.or_false, Option.getD_some,
    any_all_ne_eq_not_cabinSatisfied]
  cases hb : cabinSatisfied cc f with
  | true => simp
  | false => cases f.itineraries <;> simp

/-- C8: `filter_flights` with no criteria supplied returns the input
list unchanged, and for every choice of criteria the output is an
order-preserving subsequence (a `List.Sublist`) of the input. -/
theorem filter_flights_identity_and_sublist :
    (∀ flights : List Flight, filter_flights flights none none none none = flights)
    ∧ ∀ (flights : List Flight) (md ms : Option ℕ) (al : Option (List String))
        (cc : Option String), List.Sublist (filter_flights flights md ms al cc) flights := by
  constructor
  · intro flights
    exact List.filter_eq_self.mpr (fun f _ => keepFlight_none f)
  · intro flights md ms al cc
    exact List.filter_sublist flights

/-- C10: supplying `max_stops=0` or `max_duration=0` is identical to
omitting the criterion, because the gate `if crit and ...` tests the
truthiness of the numeric value and `0` is falsy. -/
theorem filter_flights_zero_gate_no_restriction :
    ∀ (flights : List Flight) (md ms : Option ℕ) (al : Option (List String))
      (cc : Option String),
      filter_flights flights (some 0) ms al cc = filter_flights flights none ms al cc
      ∧ filter_flights flights md (some 0) al cc = filter_flights flights md none al cc := by
  intro flights md ms al cc
  constructor
  · have h : keepFlight (some 0) ms al cc = keepFlight none ms al cc := by
      funext f
      have h2 : itineraryFails (some 0) ms al cc f = itineraryFails none ms al cc f := by
        funext it
        simp [itineraryFails, truthyNat]
      simp [keepFlight, h2]
    simp only [filter_flights, h]
  · have h : keepFlight md (some 0) al cc = keepFlight md none al cc := by
      funext f
      have h2 : itineraryFails md (some 0) al cc f = itineraryFails md none al cc f := by
        funext it
        simp [itineraryFails, truthyNat]
      simp [keepFlight, h2]
    simp only [filter_flights, h]

/-- Concrete offer refuting C1 as stated: traveler 1 flies ECONOMY,
traveler 2 flies BUSINESS. -/
def fC1 : Flight :=
  { validatingAirline0 := "AF"
    priceTotal := 100
    priceGrandTotal := 100
    itineraries := [⟨120, []⟩]
    travelerPricings := [⟨100, [⟨"1", "ECONOMY"⟩]⟩, ⟨100, [⟨"1", "BUSINESS"⟩]⟩] }

/-- C1 counterexample: at least one traveler of `fC1` has a fare detail
in cabin ECONOMY, yet `filter_flights` with `cabin_class="ECONOMY"`
drops the offer — the code's cabin test is universal over travelers,
not existential. -/
theorem filter_flights_cabin_existential_false :
    (fC1.travelerPricings.any
      fun t => t.fareDetailsBySegment.any fun d => d.cabin == "ECONOMY") = true
    ∧ filter_flights [fC1] none none none (some "ECONOMY") = [] := by
  constructor <;> rfl

/-- C1 (amended): with a truthy requested cabin, an offer passes
`filter_flights` exactly when it passes the other active criteria and
either has no itineraries or every traveler's `fareDetailsBySegment`
entries include the requested cabin somewhere on the offer. -/
theorem filter_flights_cabin_universal (flights : List Flight) (md ms : Option ℕ)
    (al : Option (List String)) (cc : String) (h : cc ≠ "") :
    filter_flights flights md ms al (some cc)
      = (filter_flights flights md ms al none).filter
          (fun f => f.itineraries.isEmpty || cabinSatisfied cc f) := by
  unfold filter_flights
  rw [List.filter_filter]
  congr 1
  funext f
  exact keepFlight_some_cabin md ms al cc h f

/-- Witness instantiating `filter_flights_cabin_universal` at a concrete
offer and cabin. -/
theorem filter_flights_cabin_universal_witness :
    filter_flights [fC1] none none none (some "ECONOMY")
      = (filter_flights [fC1] none none none none).filter
          (fun f => f.itineraries.isEmpty || cabinSatisfied "ECONOMY" f) :=
  filter_flights_cabin_universal [fC1] none none none "ECONOMY" (by decide)

/-! ### Seat maps and `count_seats` -/

/-- One entry of a seat's `travelerPricing` list; `seatAvailabilityStatus`
is read with `.get`, so a missing key is `none`. -/
structure SeatPricing where
  seatAvailabilityStatus : Option String
deriving DecidableEq, Repr

/-- One seat entry of a deck; `travelerPricing` is read with
`.get('travelerPricing', [])`, so a missing key behaves as `[]`. -/
structure Seat where
  travelerPricing : List SeatPricing
deriving DecidableEq, Repr

/-- One deck of a seat map; `seats` is read with `.get('seats', [])`. -/
structure Deck where
  seats : List Seat
deriving DecidableEq, Repr

/-- One element of the response's `data` list; `decks` is read with
`.get('decks', [])`. -/
structure Seatmap where
  decks : List Deck
deriving DecidableEq, Repr

/-- The dynamic shapes a seat-map response can take with respect to the
guard `seatmap_data and isinstance(seatmap_data, dict) and 'data' in
seatmap_data` in `count_seats`. -/
inductive SeatmapData where
  /-- a falsy value (`None`, `{}`, `0`, ...): the guard's first test fails. -/
  | falsy
  /-- a truthy non-dict value: the `isinstance` test fails. -/
  | nonDict
  /-- a dictionary without a `data` key. -/
  | dictNoData
  /-- a dictionary whose `data` key holds a list of seat maps. -/
  | dictData (maps : List Seatmap)
deriving DecidableEq, Repr

/-- Inner pricing loop of `count_seats`: one increment of
`available_seats` per pricing entry whose status equals `AVAILABLE`. -/
def seatAvailCount (s : Seat) : ℕ :=
  s.travelerPricing.foldl
    (fun acc p => if p.seatAvailabilityStatus == some "AVAILABLE" then acc + 1 else acc) 0

/-- `FlightScanner.count_seats` (flight_scanner.py, lines 400-415).
Returns `((available, total), warned)` where `warned` records whether the
"Unexpected seat map data structure or empty data." message was printed,
and an `IndexError` when the guard passes but `seatmap_data['data'][0]`
indexes an empty list. -/
def count_seats : SeatmapData → Except String ((ℕ × ℕ) × Bool)
  | .dictData [] => .error "IndexError"
  | .dictData (sm :: _) =>
      .ok (sm.decks.foldl
        (fun acc deck => deck.seats.foldl
          (fun acc2 seat => (acc2.1 + seatAvailCount seat, acc2.2 + 1)) acc)
        (0, 0), false)
  | _ => .ok ((0, 0), true)

/-- All seat entries of a seat map, across decks in order. -/
def allSeats (sm : Seatmap) : List Seat :=
  sm.decks.flatMap Deck.seats

/-- Specification-level total: the number of seat entries across all
decks. -/
def specTotalSeats (sm : Seatmap) : ℕ :=
  (allSeats sm).length

/-- Specification-level available count as `count_seats` computes it:
the number of traveler-pricing entries with status AVAILABLE, summed
over every seat of every deck. -/
def specAvailEntries (sm : Seatmap) : ℕ :=
  ((allSeats sm).map seatAvailCount).sum

/-- Count of seat entries having at least one AVAILABLE traveler-pricing
entry — the quantity the claim says `count_seats` returns as its first
component. -/
def seatsWithAvailable (sm : Seatmap) : ℕ :=
  ((allSeats sm).filter
    (fun s => s.travelerPricing.any
      (fun p => p.seatAvailabilityStatus == some "AVAILABLE"))).length

lemma seats_foldl_acc (seats : List Seat) (acc : ℕ × ℕ) :
    seats.foldl (fun acc2 seat => (acc2.1 + seatAvailCount seat, acc2.2 + 1)) acc
      = (acc.1 + (seats.map seatAvailCount).sum, acc.2 + seats.length) := by
  induction seats generalizing acc with
  | nil => simp
  | cons s rest ih =>
      simp only [List.foldl_cons, ih, List.map_cons, List.sum_cons, List.length_cons,
        Prod.mk.injEq]
      omega

lemma decks_foldl_acc (decks : List Deck) (acc : ℕ × ℕ) :
    decks.foldl
        (fun acc deck => deck.seats.foldl
          (fun acc2 seat => (acc2.1 + seatAvailCount seat, acc2.2 + 1)) acc) acc
      = (acc.1 + ((decks.flatMap Deck.seats).map seatAvailCount).sum,
         acc.2 + (decks.flatMap Deck.seats).length) := by
  induction decks generalizing acc with
  | nil => simp
  | cons d rest ih =>
      rw [List.foldl_cons, seats_foldl_acc, ih]
      simp only [List.flatMap_cons, List.map_append, List.sum_append, List.length_append,
        Prod.mk.injEq]
      omega

/-- The nested loops of `count_seats` compute the per-entry available
count and the seat count of the first seat map. -/
lemma count_seats_dictData (sm : Seatmap) (rest : List Seatmap) :
    count_seats (.dictData (sm :: rest))
      = .ok ((specAvailEntries sm, specTotalSeats sm), false) := by
  simp [count_seats, decks_foldl_acc, specAvailEntries, specTotalSeats, allSeats]

/-- Seat map refuting C2 as stated: a single seat whose two
traveler-pricing entries are both AVAILABLE. -/
def smC2 : Seatmap :=
  ⟨[⟨[⟨[⟨some "AVAILABLE"⟩, ⟨some "AVAILABLE"⟩]⟩]⟩]⟩

/-- C2 counterexample: on a seat map with one seat carrying two
AVAILABLE traveler-pricing entries, `count_seats` returns
`available = 2 > 1 = total`, while the number of seats with at least
one AVAILABLE entry is `1` — available is counted per pricing entry,
not per seat, and can exceed the total. -/
theorem count_seats_per_entry_counterexample :
    count_seats (.dictData [smC2]) = .ok ((2, 1), false)
    ∧ seatsWithAvailable smC2 = 1 ∧ ¬(2 ≤ 1) := by
  refine ⟨rfl, rfl, by omega⟩

/-- Concrete seat map of the claim's example: 3 decks of 10 seats, the
first 15 seats (all of deck 1, half of deck 2) each having one pricing
entry marked AVAILABLE, the rest one entry marked OCCUPIED. -/
def smExample : Seatmap :=
  ⟨[⟨List.replicate 10 ⟨[⟨some "AVAILABLE"⟩]⟩⟩,
    ⟨List.replicate 5 ⟨[⟨some "AVAILABLE"⟩]⟩ ++ List.replicate 5 ⟨[⟨some "OCCUPIED"⟩]⟩⟩,
    ⟨List.replicate 10 ⟨[⟨some "OCCUPIED"⟩]⟩⟩]⟩

/-- C2 (amended): `count_seats` on a well-shaped response returns
`(available, total)` where `total` counts the seat entries across all
decks of `data[0]` and `available` counts the traveler-pricing entries
with status AVAILABLE (one increment per entry, so a seat with several
AVAILABLE entries is counted once per entry); on the 3-deck example with
15 seats each marked AVAILABLE by a single entry it returns `(15, 30)`;
`available ≤ total` holds whenever every seat has at most one AVAILABLE
entry. -/
theorem count_seats_entries_and_total :
    (∀ (sm : Seatmap) (rest : List Seatmap),
      count_seats (.dictData (sm :: rest))
        = .ok ((specAvailEntries sm, specTotalSeats sm), false))
    ∧ count_seats (.dictData [smExample]) = .ok ((15, 30), false)
    ∧ ∀ sm : Seatmap, (∀ s ∈ allSeats sm, seatAvailCount s ≤ 1) →
        specAvailEntries sm ≤ specTotalSeats sm := by
  refine ⟨count_seats_dictData, rfl, ?_⟩
  intro sm h
  unfold specAvailEntries specTotalSeats
  calc ((allSeats sm).map seatAvailCount).sum
      ≤ ((allSeats sm).map seatAvailCount).length * 1 := by
        apply List.sum_le_card_nsmul
        intro x hx
        obtain ⟨s, hs, rfl⟩ := List.mem_map.mp hx
        exact h s hs
    _ = (allSeats sm).length := by simp

/-- Witness instantiating the bounded-available part of
`count_seats_entries_and_total` at the example seat map. -/
theorem count_seats_entries_and_total_witness :
    specAvailEntries smExample ≤ specTotalSeats smExample :=
  count_seats_entries_and_total.2.2 smExample (by decide)

/-- C3: `count_seats` is triggered as a code bug by `{'data': []}` —
the guard accepts the dictionary, then `seatmap_data['data'][0]` raises
an `IndexError` instead of returning `(0, 0)` with a warning; the other
unexpected shapes (falsy value, non-dict, missing `data` key) do return
`(0, 0)` and print the warning. -/
theorem count_seats_empty_data_raises :
    count_seats (.dictData []) = .error "IndexError"
    ∧ count_seats .falsy = .ok ((0, 0), true)
    ∧ count_seats .nonDict = .ok ((0, 0), true)
    ∧ count_seats .dictNoData = .ok ((0, 0), true) :=
  ⟨rfl, rfl, rfl, rfl⟩

/-! ### Cost estimator

`calculate_distance` and `estimate_flight_cost` call two external
collaborators: the geocoder (`get_airport_coordinates`, returning
coordinates or `None`) and geopy's `geodesic(..).km`.  Both are passed
as parameters of the embedding. -/

/-- Result record of `estimate_flight_cost` (its returned dictionary). -/
structure CostEstimate where
  totalCost : ℚ
  costPerPassenger : ℚ
  flightDurationHours : ℚ
  fuelNeeded : ℚ
deriving DecidableEq, Repr

/-- `FlightScanner.calculate_distance` (flight_scanner.py, lines
572-580): `None` when either airport's coordinates are unresolvable,
otherwise the geodesic distance in km. -/
def calculate_distance (coords : String → Option (ℚ × ℚ))
    (geodesicKm : ℚ × ℚ → ℚ × ℚ → ℚ) (dep arr : String) : Option ℚ :=
  match coords dep, coords arr with
  | some d, some a => some (geodesicKm d a)
  | _, _ => none

/-- `FlightScanner.estimate_flight_cost` (flight_scanner.py, lines
582-622).  When `calculate_distance` yields `None`, Python evaluates
`None / 850` and raises a `TypeError`; when `passengers == 0` the final
`total_cost / passengers` raises a `ZeroDivisionError`.  The constant
`mtow = 70534` is defined but unused by the formula.  `aircraft_type`
and `bags_per_passenger` are parameters the body never reads. -/
def estimate_flight_cost (coords : String → Option (ℚ × ℚ))
    (geodesicKm : ℚ × ℚ → ℚ × ℚ → ℚ) (aircraft_type : String)
    (passengers bags_per_passenger : ℕ) (dep arr : String)
    (fuel_price_per_litre : ℚ) : Except String CostEstimate :=
  match calculate_distance coords geodesicKm dep arr with
  | none => .error "TypeError"
  | some distance_km =>
    let fuel_consumption_per_hour : ℚ := 2500
    let average_speed_kmh : ℚ := 850
    let crew_cost_per_hour : ℚ := 500
    let airport_fees : ℚ := 2000
    let maintenance_cost_per_hour : ℚ := 800
    let oew : ℚ := 41413
    let flight_duration_hours := distance_km / average_speed_kmh
    let passenger_weight : ℚ := 100
    let total_weight := oew + (passengers : ℚ) * passenger_weight
    let weight_factor := total_weight / oew
    let adjusted_fuel_consumption_per_hour :=
      fuel_consumption_per_hour * (1 + (5 / 1000) * (weight_factor - 1))
    let total_fuel_needed := adjusted_fuel_consumption_per_hour * flight_duration_hours
    let fuel_cost := total_fuel_needed * fuel_price_per_litre
    let crew_cost := crew_cost_per_hour * flight_duration_hours
    let maintenance_cost := maintenance_cost_per_hour * flight_duration_hours
    let total_cost := fuel_cost + crew_cost + airport_fees + maintenance_cost
    if passengers = 0 then .error "ZeroDivisionError"
    else .ok { totalCost := total_cost
               costPerPassenger := total_cost / (passengers : ℚ)
               flightDurationHours := flight_duration_hours
               fuelNeeded := total_fuel_needed }

/-- Closed form of `total_fuel_needed` for passengers `p` and distance
`D`. -/
def fuelNeededFor (p : ℕ) (D : ℚ) : ℚ :=
  2500 * (1 + (5 / 1000) * ((41413 + (p : ℚ) * 100) / 41413 - 1)) * (D / 850)

/-- Closed form of `total_cost`. -/
def totalCostFor (p : ℕ) (D : ℚ) (price : ℚ) : ℚ :=
  fuelNeededFor p D * price + 500 * (D / 850) + 2000 + 800 * (D / 850)

/-- Total cost carried by a successful estimate (`0` on an exception). -/
def totalOf (e : Except String CostEstimate) : ℚ :=
  match e with
  | .ok r => r.totalCost
  | .error _ => 0

/-- Successful run of the estimator in closed form. -/
lemma estimate_flight_cost_ok (coords : String → Option (ℚ × ℚ))
    (geodesicKm : ℚ × ℚ → ℚ × ℚ → ℚ) (t : String) (p bags : ℕ)
    (dep arr : String) (price D : ℚ)
    (hD : calculate_distance coords geodesicKm dep arr = some D) (hp : p ≠ 0) :
    estimate_flight_cost coords geodesicKm t p bags dep arr price
      = .ok { totalCost := totalCostFor p D price
              costPerPassenger := totalCostFor p D price / (p : ℚ)
              flightDurationHours := D / 850
              fuelNeeded := fuelNeededFor p D } := by
  simp only [estimate_flight_cost, hD]
  rw [if_neg hp]
  simp only [Except.ok.injEq, CostEstimate.mk.injEq]
  unfold totalCostFor fuelNeededFor
  refine ⟨by ring, by ring, by ring, by ring⟩

/-- The fuel term is positive for any passenger count once the distance
is positive. -/
lemma fuelNeededFor_pos (p : ℕ) (D : ℚ) (hD : 0 < D) : 0 < fuelNeededFor p D := by
  have hq : (0 : ℚ) ≤ (p : ℚ) := Nat.cast_nonneg p
  unfold fuelNeededFor
  have hDq : 0 ≤ D * (p : ℚ) := mul_nonneg hD.le hq
  nlinarith [hD, hDq]

/-- Fixed geocoder used for concrete witnesses: every airport resolves
to the origin. -/
def coordsAll : String → Option (ℚ × ℚ) := fun _ => some (0, 0)

/-- Fixed geodesic distance used for concrete witnesses: 850 km. -/
def geoConst : ℚ × ℚ → ℚ × ℚ → ℚ := fun _ _ => 850

/-- Geocoder that fails on every airport, as when the geocoding
collaborator cannot resolve coordinates. -/
def coordsNone : String → Option (ℚ × ℚ) := fun _ => none

/-- C4: when the geocoding collaborator cannot resolve the route
(`calculate_distance` yields `None`), `estimate_flight_cost` evaluates
`None / 850` and the resulting `TypeError` propagates (no handler exists
in estimate_flight_cost or in main.py), instead of reporting "cannot
compute" for that one estimate. -/
theorem estimate_unresolved_distance_raises (coords : String → Option (ℚ × ℚ))
    (geodesicKm : ℚ × ℚ → ℚ × ℚ → ℚ) (t : String) (p bags : ℕ)
    (dep arr : String) (price : ℚ)
    (h : calculate_distance coords geodesicKm dep arr = none) :
    estimate_flight_cost coords geodesicKm t p bags dep arr price
      = .error "TypeError" := by
  simp only [estimate_flight_cost, h]

/-- Witness instantiating `estimate_unresolved_distance_raises` with a
geocoder that resolves nothing. -/
theorem estimate_unresolved_distance_raises_witness :
    estimate_flight_cost coordsNone geoConst "Airbus 737" 150 1 "CDG" "ALG" (12 / 10)
      = .error "TypeError" :=
  estimate_unresolved_distance_raises coordsNone geoConst "Airbus 737" 150 1
    "CDG" "ALG" (12 / 10) rfl

/-- C7: with `passengers = 0` and a resolved distance, the estimator
reaches `total_cost / passengers` and signals a `ZeroDivisionError`
rather than silently returning an infinite or NaN cost per passenger. -/
theorem estimate_zero_passengers_division_error (coords : String → Option (ℚ × ℚ))
    (geodesicKm : ℚ × ℚ → ℚ × ℚ → ℚ) (t : String) (bags : ℕ)
    (dep arr : String) (price D : ℚ)
    (hD : calculate_distance coords geodesicKm dep arr = some D) :
    estimate_flight_cost coords geodesicKm t 0 bags dep arr price
      = .error "ZeroDivisionError" := by
  simp [estimate_flight_cost, hD]

/-- Witness instantiating `estimate_zero_passengers_division_error` at a
concrete resolved route. -/
theorem estimate_zero_passengers_division_error_witness :
    estimate_flight_cost coordsAll geoConst "Boeing 737" 0 1 "CDG" "ALG" (12 / 10)
      = .error "ZeroDivisionError" :=
  estimate_zero_passengers_division_error coordsAll geoConst "Boeing 737" 1
    "CDG" "ALG" (12 / 10) 850 rfl

/-- C6 counterexample: with fuel price `0` (a legal fixed value of "the
other argument") the total cost does not depend on the passenger count —
1 and 2 passengers both cost 3300 — so the claimed strict monotonicity
in `passengers` fails as stated. -/
theorem estimate_not_monotone_in_passengers_at_zero_price :
    (1 : ℕ) < 2
    ∧ totalOf (estimate_flight_cost coordsAll geoConst "Boeing 737" 1 1 "CDG" "ALG" 0) = 3300
    ∧ totalOf (estimate_flight_cost coordsAll geoConst "Boeing 737" 2 1 "CDG" "ALG" 0) = 3300 := by
  rw [estimate_flight_cost_ok coordsAll geoConst "Boeing 737" 1 1 "CDG" "ALG" 0 850 rfl
      (by decide),
    estimate_flight_cost_ok coordsAll geoConst "Boeing 737" 2 1 "CDG" "ALG" 0 850 rfl
      (by decide)]
  simp only [totalOf]
  unfold totalCostFor fuelNeededFor
  norm_num

/-- C6 (amended): with a resolved positive distance `D`, the estimator
returns `flightDurationHours = D / 850` exactly; its total cost is
strictly increasing in `fuelPricePerLitre` (passengers fixed and
non-zero); and it is strictly increasing in `passengers` provided the
fixed fuel price is positive. -/
theorem estimate_duration_and_monotonicity (coords : String → Option (ℚ × ℚ))
    (geodesicKm : ℚ × ℚ → ℚ × ℚ → ℚ) (t : String) (bags : ℕ)
    (dep arr : String) (D : ℚ)
    (hD : calculate_distance coords geodesicKm dep arr = some D) (hDpos : 0 < D) :
    (∀ (p : ℕ) (price : ℚ), p ≠ 0 →
        ∃ r, estimate_flight_cost coords geodesicKm t p bags dep arr price = .ok r
          ∧ r.flightDurationHours = D / 850)
    ∧ (∀ (p : ℕ) (price1 price2 : ℚ), p ≠ 0 → price1 < price2 →
        totalOf (estimate_flight_cost coords geodesicKm t p bags dep arr price1)
          < totalOf (estimate_flight_cost coords geodesicKm t p bags dep arr price2))
    ∧ (∀ (price : ℚ) (p1 p2 : ℕ), 0 < price → p1 ≠ 0 → p1 < p2 →
        totalOf (estimate_flight_cost coords geodesicKm t p1 bags dep arr price)
          < totalOf (estimate_flight_cost coords geodesicKm t p2 bags dep arr price)) := by
  refine ⟨?_, ?_, ?_⟩
  · intro p price hp
    exact ⟨_, estimate_flight_cost_ok coords geodesicKm t p bags dep arr price D hD hp, rfl⟩
  · intro p price1 price2 hp h12
    rw [estimate_flight_cost_ok coords geodesicKm t p bags dep arr price1 D hD hp,
      estimate_flight_cost_ok coords geodesicKm t p bags dep arr price2 D hD hp]
    have hfuel := fuelNeededFor_pos p D hDpos
    simp only [totalOf, totalCostFor]
    have := mul_lt_mul_of_pos_left h12 hfuel
    linarith
  · intro price p1 p2 hprice hp1 h12
    have hp2 : p2 ≠ 0 := by omega
    rw [estimate_flight_cost_ok coords geodesicKm t p1 bags dep arr price D hD hp1,
      estimate_flight_cost_ok coords geodesicKm t p2 bags dep arr price D hD hp2]
    simp only [totalOf, totalCostFor]
    have hq12 : ((p1 : ℚ)) < ((p2 : ℚ)) := by exact_mod_cast h12
    have key : 0 < D * price * (((p2 : ℚ)) - ((p1 : ℚ))) := by
      apply mul_pos (mul_pos hDpos hprice)
      linarith
    unfold fuelNeededFor
    nlinarith [key]

/-- Witness instantiating the fuel-price monotonicity part of
`estimate_duration_and_monotonicity` at a concrete route. -/
theorem estimate_duration_and_monotonicity_witness :
    totalOf (estimate_flight_cost coordsAll geoConst "Boeing 737" 150 1 "CDG" "ALG" 1)
      < totalOf (estimate_flight_cost coordsAll geoConst "Boeing 737" 150 1 "CDG" "ALG" 2) :=
  (estimate_duration_and_monotonicity coordsAll geoConst "Boeing 737" 1 "CDG" "ALG" 850
    rfl (by norm_num)).2.1 150 1 2 (by decide) (by norm_num)

/-! ### Association-list dictionaries

The weekday and per-airline aggregations build Python dictionaries by
conditional insert-or-update; they are embedded as association lists
with unique keys in insertion order. -/

/-- Lookup of a key in an association list (Python `dict[k]` /
`k in dict`). -/
def alookup {β : Type} (k : String) : List (String × β) → Option β
  | [] => none
  | e :: rest => if e.1 = k then some e.2 else alookup k rest

lemma alookup_map {β γ : Type} (g : β → γ) (l : List (String × β)) (k : String) :
    alookup k (l.map (fun e => (e.1, g e.2))) = (alookup k l).map g := by
  induction l with
  | nil => rfl
  | cons e rest ih =>
      by_cases h : e.1 = k <;> simp [alookup, h, ih]

/-! ### `analyze_prices_by_weekday` -/

/-- Weekday names as produced by `strftime('%A')`, indexed with Sunday
at 0 to match the day-of-week computation below. -/
def weekdayNames : List String :=
  ["Sunday", "Monday", "Tuesday", "Wednesday", "Thursday", "Friday", "Saturday"]

/-- Month offsets of Sakamoto's day-of-week method. -/
def monthOffsets : List ℕ := [0, 3, 2, 5, 0, 3, 5, 1, 4, 6, 2, 4]

/-- Day-of-week index (0 = Sunday) of a Gregorian date, by Sakamoto's
method. -/
def dayOfWeekIdx (dt : DateTime) : ℕ :=
  let y := if dt.month < 3 then dt.year - 1 else dt.year
  (y + y / 4 - y / 100 + y / 400 + monthOffsets.getD (dt.month - 1) 0 + dt.day) % 7

/-- `FlightScanner._get_weekday` (flight_scanner.py, lines 423-431):
`datetime.fromisoformat(date_str).strftime('%A')`.  The weekday of a
Gregorian calendar date, as an English day name. -/
def get_weekday (dt : DateTime) : String :=
  weekdayNames.getD (dayOfWeekIdx dt) ""

/-- The `(departure_day, grandTotal)` pairs processed by the triple
loop of `analyze_prices_by_weekday`, in loop order: one pair per segment
of every itinerary of every offer, always carrying the offer's whole
`grandTotal`. -/
def weekdayPairs (flights : List Flight) : List (String × ℚ) :=
  flights.flatMap fun f => f.itineraries.flatMap fun it =>
    it.segments.map fun s => (get_weekday s.departureAt, f.priceGrandTotal)

/-- Loop body of `analyze_prices_by_weekday`: initialize an absent
weekday bucket to `(0.0, 0)` and add `(price, 1)` to it.  The Python
code keeps the sums and counts in two dictionaries updated in lockstep
over the same keys; the embedding pairs them. -/
def bumpDay (st : List (String × (ℚ × ℕ))) (day : String) (price : ℚ) :
    List (String × (ℚ × ℕ)) :=
  match st with
  | [] => [(day, (price, 1))]
  | e :: rest =>
      if e.1 = day then (e.1, (e.2.1 + price, e.2.2 + 1)) :: rest
      else e :: bumpDay rest day price

/-- Final per-bucket division of `analyze_prices_by_weekday`:
`prices_by_day[day] /= count_by_day[day]`. -/
def divPair (sc : ℚ × ℕ) : ℚ := sc.1 / (sc.2 : ℚ)

/-- `FlightScanner.analyze_prices_by_weekday` (flight_scanner.py, lines
453-480): accumulate sums and counts per weekday, then divide each sum
by its count. -/
def analyze_prices_by_weekday (flights : List Flight) : List (String × ℚ) :=
  ((weekdayPairs flights).foldl (fun st pr => bumpDay st pr.1 pr.2) []).map
    (fun e => (e.1, divPair e.2))

/-- Number of pairs of `l` keyed by `day`. -/
def cntIn (l : List (String × ℚ)) (day : String) : ℕ :=
  (l.filter (fun pr => pr.1 == day)).length

/-- Sum of the values of the pairs of `l` keyed by `day`. -/
def sumIn (l : List (String × ℚ)) (day : String) : ℚ :=
  ((l.filter (fun pr => pr.1 == day)).map Prod.snd).sum

lemma sumIn_eq_zero_of_cntIn (l : List (String × ℚ)) (day : String)
    (h : cntIn l day = 0) : sumIn l day = 0 := by
  unfold cntIn at h
  unfold sumIn
  rw [List.length_eq_zero] at h
  simp [h]

lemma alookup_bumpDay (st : List (String × (ℚ × ℕ))) (day k : String) (price : ℚ) :
    alookup k (bumpDay st day price)
      = if day = k
          then some (((alookup k st).getD (0, 0)).1 + price,
                     ((alookup k st).getD (0, 0)).2 + 1)
          else alookup k st := by
  induction st with
  | nil =>
      by_cases h : day = k <;> simp [bumpDay, alookup, h]
  | cons e rest ih =>
      by_cases h1 : e.1 = day
      · by_cases h2 : e.1 = k
        · simp [bumpDay, alookup, h1, h2, h1 ▸ h2]
        · have hdk : ¬(day = k) := fun hc => h2 (h1.trans hc)
          simp [bumpDay, alookup, h1, h2, hdk]
      · by_cases h2 : e.1 = k
        · have hdk : ¬(day = k) := fun hc => h1 (h2.trans hc.symm)
          have h1b : ¬(k = day) := h2 ▸ h1
          simp [bumpDay, alookup, h1, h2, hdk, h1b]
        · simp [bumpDay, alookup, h1, h2, ih]

lemma alookup_foldl_bumpDay (pairs : List (String × ℚ))
    (st : List (String × (ℚ × ℕ))) (k : String) :
    alookup k (pairs.foldl (fun st pr => bumpDay st pr.1 pr.2) st)
      = if cntIn pairs k = 0 then alookup k st
        else some (((alookup k st).getD (0, 0)).1 + sumIn pairs k,
                   ((alookup k st).getD (0, 0)).2 + cntIn pairs k) := by
  induction pairs generalizing st with
  | nil => simp [cntIn, sumIn]
  | cons pr rest ih =>
      rw [List.foldl_cons, ih]
      by_cases h : pr.1 = k
      · have hcnt : cntIn (pr :: rest) k = cntIn rest k + 1 := by
          simp [cntIn, List.filter_cons, h]
        have hsum : sumIn (pr :: rest) k = pr.2 + sumIn rest k := by
          simp [sumIn, List.filter_cons, h]
        rw [alookup_bumpDay, if_pos h]
        by_cases hr : cntIn rest k = 0
        · have := sumIn_eq_zero_of_cntIn rest k hr
          simp [hr, hcnt, hsum, this]
        · have hpairs : ¬(cntIn (pr :: rest) k = 0) := by omega
          rw [if_neg hr, if_neg hpairs]
          simp only [Option.getD_some, Option.some.injEq, Prod.mk.injEq, hcnt, hsum]
          constructor
          · ring
          · omega
      · have hcnt : cntIn (pr :: rest) k = cntIn rest k := by
          simp [cntIn, List.filter_cons, h]
        have hsum : sumIn (pr :: rest) k = sumIn rest k := by
          simp [sumIn, List.filter_cons, h]
        rw [alookup_bumpDay, if_neg h, hcnt, hsum]

/-- C5: for every weekday that some segment departs on,
`analyze_prices_by_weekday` returns the accumulated sum of the owning
offers' `grandTotal` values — one contribution per segment of every
itinerary of every offer — divided by the number of such segments. -/
theorem analyze_prices_by_weekday_mean (flights : List Flight) (day : String)
    (h : cntIn (weekdayPairs flights) day ≠ 0) :
    alookup day (analyze_prices_by_weekday flights)
      = some (sumIn (weekdayPairs flights) day
                / (cntIn (weekdayPairs flights) day : ℚ)) := by
  unfold analyze_prices_by_weekday
  rw [alookup_map, alookup_foldl_bumpDay, if_neg h]
  simp [alookup, divPair]

/-- Calendar date 2025-03-26, a Wednesday. -/
def dtWed : DateTime := ⟨2025, 3, 26⟩

/-- Two-segment offer used to witness the weekday aggregation: both
segments depart on a Wednesday, so the whole-offer price 10 is counted
twice in the Wednesday bucket. -/
def fC5 : Flight :=
  { validatingAirline0 := "AF"
    priceTotal := 10
    priceGrandTotal := 10
    itineraries := [⟨90, [⟨"CDG", "ALG", dtWed, 0⟩, ⟨"ALG", "CDG", dtWed, 0⟩]⟩]
    travelerPricings := [] }

/-- Witness instantiating `analyze_prices_by_weekday_mean` at a concrete
multi-segment offer. -/
theorem analyze_prices_by_weekday_mean_witness :
    alookup "Wednesday" (analyze_prices_by_weekday [fC5])
      = some (sumIn (weekdayPairs [fC5]) "Wednesday"
                / (cntIn (weekdayPairs [fC5]) "Wednesday" : ℚ)) :=
  analyze_prices_by_weekday_mean [fC5] "Wednesday" (by decide)

/-! ### `calculate_statistics` -/

/-- Per-airline statistics record returned by `calculate_statistics`. -/
structure AirlineStats where
  mean : ℚ
  median : ℚ
deriving DecidableEq, Repr

/-- Loop body of the grouping phase of `calculate_statistics`: append
the price to the airline's list, or start a new singleton entry. -/
def addPrice (st : List (String × List ℚ)) (a : String) (p : ℚ) :
    List (String × List ℚ) :=
  match st with
  | [] => [(a, [p])]
  | e :: rest =>
      if e.1 = a then (e.1, e.2 ++ [p]) :: rest
      else e :: addPrice rest a p

/-- Arithmetic mean, as `np.mean` computes it on a price list. -/
def meanOf (l : List ℚ) : ℚ := l.sum / (l.length : ℚ)

/-- `statistics.median`: sort ascending; an odd-length list yields the
middle element, an even-length list the average of the two middle
elements.  (Python raises on an empty list; `calculate_statistics` only
applies it to non-empty groups.) -/
def pyMedian (l : List ℚ) : ℚ :=
  let s := l.mergeSort (fun x y => decide (x ≤ y))
  if l.length % 2 = 1 then s.getD (l.length / 2) 0
  else (s.getD (l.length / 2 - 1) 0 + s.getD (l.length / 2) 0) / 2

/-- Statistics of one airline's price group. -/
def mkStats (l : List ℚ) : AirlineStats := { mean := meanOf l, median := pyMedian l }

/-- `FlightScanner.calculate_statistics` (flight_scanner.py, lines
195-221): group `price.total` by first validating-airline code, then
compute mean and median per group. -/
def calculate_statistics (flights : List Flight) : List (String × AirlineStats) :=
  (flights.foldl (fun st f => addPrice st f.validatingAirline0 f.priceTotal) []).map
    (fun e => (e.1, mkStats e.2))

/-- The group of `price.total` values of the offers validated by
airline `a`, in input order. -/
def pricesOf (flights : List Flight) (a : String) : List ℚ :=
  (flights.filter (fun f => f.validatingAirline0 == a)).map Flight.priceTotal

lemma alookup_addPrice (st : List (String × List ℚ)) (a k : String) (p : ℚ) :
    alookup k (addPrice st a p)
      = if a = k then some ((alookup k st).getD [] ++ [p]) else alookup k st := by
  induction st with
  | nil =>
      by_cases h : a = k <;> simp [addPrice, alookup, h]
  | cons e rest ih =>
      by_cases h1 : e.1 = a
      · by_cases h2 : e.1 = k
        · simp [addPrice, alookup, h1, h2, h1 ▸ h2]
        · have hak : ¬(a = k) := fun hc => h2 (h1.trans hc)
          simp [addPrice, alookup, h1, h2, hak]
      · by_cases h2 : e.1 = k
        · have hak : ¬(a = k) := fun hc => h1 (h2.trans hc.symm)
          have h1b : ¬(k = a) := h2 ▸ h1
          simp [addPrice, alookup, h1, h2, hak, h1b]
        · simp [addPrice, alookup, h1, h2, ih]

lemma alookup_foldl_addPrice (flights : List Flight)
    (st : List (String × List ℚ)) (k : String) :
    alookup k (flights.foldl (fun st f => addPrice st f.validatingAirline0 f.priceTotal) st)
      = if pricesOf flights k = [] then alookup k st
        else some ((alookup k st).getD [] ++ pricesOf flights k) := by
  induction flights generalizing st with
  | nil => simp [pricesOf]
  | cons f rest ih =>
      rw [List.foldl_cons, ih]
      by_cases h : f.validatingAirline0 = k
      · have hps : pricesOf (f :: rest) k = f.priceTotal :: pricesOf rest k := by
          simp [pricesOf, List.filter_cons, h]
        rw [alookup_addPrice, if_pos h, hps]
        by_cases hr : pricesOf rest k = []
        · simp [hr]
        · simp [hr]
      · have hps : pricesOf (f :: rest) k = pricesOf rest k := by
          simp [pricesOf, List.filter_cons, h]
        rw [alookup_addPrice, if_neg h, hps]

/-- C9: for every airline with at least one offer in the list,
`calculate_statistics` returns, for the group of that airline's
`price.total` values, a mean equal to the group's sum divided by its
size and a median equal to `pyMedian` of the group (sorted middle
element, averaging the two middles for even-length groups). -/
theorem calculate_statistics_mean_median (flights : List Flight) (a : String)
    (h : pricesOf flights a ≠ []) :
    alookup a (calculate_statistics flights)
      = some { mean := (pricesOf flights a).sum / ((pricesOf flights a).length : ℚ)
               median := pyMedian (pricesOf flights a) } := by
  unfold calculate_statistics
  rw [alookup_map, alookup_foldl_addPrice, if_neg h]
  simp [alookup, mkStats, meanOf]

/-- Offers used to witness the statistics claim: two AF offers and one
LH offer. -/
def fsC9 : List Flight :=
  [{ validatingAirline0 := "AF", priceTotal := 120, priceGrandTotal := 130,
     itineraries := [], travelerPricings := [] },
   { validatingAirline0 := "LH", priceTotal := 200, priceGrandTotal := 210,
     itineraries := [], travelerPricings := [] },
   { validatingAirline0 := "AF", priceTotal := 80, priceGrandTotal := 90,
     itineraries := [], travelerPricings := [] }]

/-- Witness instantiating `calculate_statistics_mean_median` on the AF
group of three concrete offers. -/
theorem calculate_statistics_mean_median_witness :
    alookup "AF" (calculate_statistics fsC9)
      = some { mean := (pricesOf fsC9 "AF").sum / ((pricesOf fsC9 "AF").length : ℚ)
               median := pyMedian (pricesOf fsC9 "AF") } :=
  calculate_statistics_mean_median fsC9 "AF" (by decide)

end FlyPath
